import Mathlib

/-!
Verification of the mattermost-load-test core against its source.

The definitions below are a shallow embedding of the Go source:
* `loadtest` — the per-entity runner (`runEntity`, `websocketListen` in
  `user_entity.go`-style file `src/unnamed/part_000`),
* `randutil` — the weighted-choice helper (modelled from the spec where noted),
* `kubernetes` — the cluster coordinator (`src/kubernetes/cluster_loadtest.go`).

Go machine integers (`int64` nanosecond durations, `int` counters) are embedded
as `Nat`/`Int` with the source's exact arithmetic; effectful code is embedded as
explicit traces (lists of commands, sleeps, counter deltas) driven by scripts of
environment outcomes.
-/

namespace randutil

/-- Source `randutil.Choice`: a weighted item. The `Item interface{}` payload
(an action capability in `runEntity`) is embedded as an opaque identifier. -/
structure Choice where
  item : Nat
  weight : Int
deriving DecidableEq, Repr

/-- Sum of the weights of a choice list. -/
def totalWeight (cs : List Choice) : Int :=
  (cs.map Choice.weight).sum

/-- Cumulative-weight lookup used by a weighted draw. -/
def pickWeighted (x : Int) : List Choice → Option Choice
  | [] => none
  | c :: rest => if x < c.weight then some c else pickWeighted (x - c.weight) rest

/-- Modelled from the spec: the `randutil.WeightedChoice` implementation is not
under `src/` (only its caller `runEntity` is). Per the spec it draws one choice
from the weighted list and "Fails with `SelectionError` if the weight list is
empty or total weight is non-positive"; `x` stands for the random draw. -/
def WeightedChoice (cs : List Choice) (x : Int) : Except String Choice :=
  if totalWeight cs ≤ 0 then .error "SelectionError"
  else
    match pickWeighted (x % totalWeight cs) cs with
    | some c => .ok c
    | none => .error "SelectionError"

end randutil

namespace loadtest

/-- Source `runEntity` lines 124-131: the first firing instant.
`now` and `rate` are in nanoseconds (`time.Duration` counts); `u` is the value
of `rand.Int63n(int64(ec.ActionRate))`.
`intervalStart := time.Unix(0, now.UnixNano()-now.UnixNano()%int64(ec.ActionRate/time.Nanosecond))`,
`start := intervalStart.Add(time.Duration(u))`, advanced by one interval if it
already passed. -/
def firstStart (now rate u : Nat) : Nat :=
  let intervalStart := now - now % rate
  let start := intervalStart + u
  if start < now then start + rate else start

/-- Source `runEntity` line 131: `delay := start.Sub(now)`. -/
def firstDelay (now rate u : Nat) : Nat :=
  firstStart now rate u - now

/-- Source `runEntity` lines 145-147: the timer re-arm duration, in nanoseconds.
`varianceMs` is the raw `ActionRateMaxVarianceMilliseconds` integer and `draw`
the value of `rand.Intn(actionRateMaxVarianceMilliseconds)`; both are converted
to `time.Duration` (a nanosecond count) with no millisecond multiplier, exactly
as in `timer.Reset(ec.ActionRate + randomDurationWithinVariance - halfVarianceDuration)`
with `halfVarianceDuration = time.Duration(actionRateMaxVarianceMilliseconds / 2.0)`. -/
def rearmDuration (actionRate varianceMs draw : Int) : Int :=
  actionRate + draw - varianceMs / 2

/-- The two deferred calls registered by `runEntity` (source lines 113-120), in
registration order: first the recover-and-respawn supervisor closure, then
`ec.StopWaitGroup.Done()`. -/
inductive RunEntityDefer where
  | recoverSupervisor
  | stopWaitGroupDone
deriving DecidableEq, Repr

/-- `runEntity`'s defer stack in registration order (lines 113 and 120). -/
def runEntityDefers : List RunEntityDefer :=
  [.recoverSupervisor, .stopWaitGroupDone]

/-- Counter deltas performed by one deferred call during unwinding:
`ec.StopWaitGroup.Done()` always decrements; the supervisor closure increments
(`ec.StopWaitGroup.Add(1)`, line 116) only when `recover()` observes a panic. -/
def deferDeltas (panicking : Bool) : RunEntityDefer → List Int
  | .stopWaitGroupDone => [-1]
  | .recoverSupervisor => if panicking then [1] else []

/-- Go executes deferred calls in reverse registration order (LIFO), so the
counter deltas of one `runEntity` invocation's unwinding are those of
`StopWaitGroup.Done()` followed by those of the recover closure. -/
def unwindDeltas (panicking : Bool) : List Int :=
  (runEntityDefers.reverse).flatMap (deferDeltas panicking)

/-- Running counter values, starting from `c0`, after each successive delta. -/
def counterTrace (c0 : Int) (deltas : List Int) : List Int :=
  List.scanl (fun c d => c + d) c0 deltas

/-- Counter deltas of `n` consecutive crash-and-restart cycles (each a
panicking invocation whose supervisor respawns the runner) followed by one
final clean stop of the last respawned runner. -/
def crashStopDeltas (n : Nat) : List Int :=
  (List.replicate n (unwindDeltas true)).flatten ++ unwindDeltas false

/-- One scheduling event observed by `runEntity`'s select loop (lines 134-149):
either the stop channel fires, or the timer fires with random draw `x` and the
selected action either runs to completion or panics. -/
inductive SchedEvt where
  | stop
  | fire (x : Int) (actionPanics : Bool)
deriving DecidableEq, Repr

/-- How one `runEntity` invocation's scheduler loop ends. -/
inductive RunnerExit where
  | stopSignal
  | selectionFailure
  | panicked
  | scriptEnd
deriving DecidableEq, Repr

/-- Source `runEntity` scheduler loop (lines 134-149): on stop, return; on a
timer firing, draw a weighted choice — on error log and return, otherwise
execute the selected action (which may panic) and re-arm the timer. Returns
the exit kind and the number of completed action executions. -/
def runEntityLoop (actions : List randutil.Choice) :
    List SchedEvt → Nat → RunnerExit × Nat
  | [], acted => (.scriptEnd, acted)
  | .stop :: _, acted => (.stopSignal, acted)
  | .fire x p :: rest, acted =>
    match randutil.WeightedChoice actions x with
    | .error _ => (.selectionFailure, acted)
    | .ok _ => if p then (.panicked, acted) else runEntityLoop actions rest (acted + 1)

/-- The supervisor's view of one invocation's end (source lines 113-120): the
unwinding counter deltas, and whether a fresh `runEntity` task is respawned
(`go runEntity(ec)`, line 117, only on a recovered panic). -/
def superviseExit : RunnerExit → List Int × Bool
  | .panicked => (unwindDeltas true, true)
  | .stopSignal => (unwindDeltas false, false)
  | .selectionFailure => (unwindDeltas false, false)
  | .scriptEnd => (unwindDeltas false, false)

/-- Exit of the retry loop of `websocketListen` (source lines 191-208), with
the value of `websocketRetryCount` at exit. `exhausted` is a script artifact:
the scripted connection outcomes ran out while the loop would keep going. -/
inductive RetryOut where
  | dead (finalRetry : Nat)
  | reconnected (finalRetry : Nat)
  | exhausted (finalRetry : Nat)
deriving DecidableEq, Repr

/-- The retry counter value at exit of the retry loop. -/
def RetryOut.finalRetry : RetryOut → Nat
  | .dead r => r
  | .reconnected r => r
  | .exhausted r => r

/-- Everything one run of the retry loop did: its exit, the argument of each
`time.Sleep(time.Duration(websocketRetryCount) * time.Second)` in seconds (one
per `Connect` attempt, in order), and how many `Connect` calls failed and
succeeded. -/
structure EpisodeOut where
  out : RetryOut
  sleeps : List Nat
  failedConnects : Nat
  okConnects : Nat
deriving DecidableEq, Repr

/-- Source `websocketListen` retry loop (lines 191-208), driven by a script
`cs` of `Connect` outcomes (`true` = reconnect succeeded): if the counter
exceeds 5 the connection is declared dead; otherwise sleep `websocketRetryCount`
seconds and attempt `Connect` — on error increment the counter and loop, on
success listen again and break. The loop consults no stop signal. -/
def retryLoop : Nat → List Bool → EpisodeOut
  | retry, [] =>
    if 5 < retry then ⟨.dead retry, [], 0, 0⟩ else ⟨.exhausted retry, [], 0, 0⟩
  | retry, c :: rest =>
    if 5 < retry then ⟨.dead retry, [], 0, 0⟩
    else if c then ⟨.reconnected retry, [retry], 0, 1⟩
    else
      let e := retryLoop (retry + 1) rest
      ⟨e.out, retry :: e.sleeps, e.failedConnects + 1, e.okConnects⟩

/-- One event taken from the outer select of `websocketListen` (lines 185-209):
a delivered websocket event (`ok = true`), or a closed event channel together
with the scripted outcomes of the subsequent `Connect` attempts. -/
inductive WsEvt where
  | msg
  | closed (cs : List Bool)
deriving DecidableEq, Repr

/-- How the listening task ended. -/
inductive WsResult where
  | nilClient
  | stopped
  | dead
  | scriptEnd
deriving DecidableEq, Repr

/-- Full observable behavior of one `websocketListen` run. -/
structure WsOut where
  result : WsResult
  sleeps : List Nat
  failedConnects : Nat
  okConnects : Nat
  deathLog : Option String
deriving DecidableEq, Repr

/-- Source lines 193-197: on death, log `ListenError` if present, otherwise
that the server closed the websocket. -/
def deadLogMsg : Option String → String
  | some e => "Websocket Error: " ++ e
  | none => "Server closed websocket"

/-- Source `websocketListen` outer loop (lines 184-211). `stopNow k` tells
whether the select at outer iteration `k` takes the stop branch; the event
script supplies the other branch. The stop channel is consulted only here —
the retry loop (`retryLoop`) takes no stop input, exactly as in the source. -/
def wsOuter (stopNow : Nat → Bool) (listenErr : Option String) :
    Nat → Nat → List WsEvt → WsOut
  | k, _, [] =>
    if stopNow k then ⟨.stopped, [], 0, 0, none⟩ else ⟨.scriptEnd, [], 0, 0, none⟩
  | k, retry, .msg :: rest =>
    if stopNow k then ⟨.stopped, [], 0, 0, none⟩
    else wsOuter stopNow listenErr (k + 1) retry rest
  | k, retry, .closed cs :: rest =>
    if stopNow k then ⟨.stopped, [], 0, 0, none⟩
    else
      let e := retryLoop retry cs
      match e.out with
      | .dead _ =>
        ⟨.dead, e.sleeps, e.failedConnects, e.okConnects, some (deadLogMsg listenErr)⟩
      | .exhausted _ => ⟨.scriptEnd, e.sleeps, e.failedConnects, e.okConnects, none⟩
      | .reconnected r =>
        let w := wsOuter stopNow listenErr (k + 1) r rest
        ⟨w.result, e.sleeps ++ w.sleeps, e.failedConnects + w.failedConnects,
          e.okConnects + w.okConnects, w.deathLog⟩

/-- Source `websocketListen` (lines 173-212): return at once when the client is
nil (lines 176-178), otherwise listen and run the outer loop with
`websocketRetryCount := 0` (line 182). -/
def websocketListen (clientNil : Bool) (stopNow : Nat → Bool)
    (listenErr : Option String) (evts : List WsEvt) : WsOut :=
  if clientNil then ⟨.nilClient, [], 0, 0, none⟩
  else wsOuter stopNow listenErr 0 0 evts

/-- A stop signal that becomes (and stays) pending immediately after outer
iteration 0 — in particular during the whole first reconnect episode. -/
def stopFromOne : Nat → Bool :=
  fun k => decide (1 ≤ k)

end loadtest

namespace kubernetes

/-- One effect performed by the cluster coordinator, in order: the `kubectl`
commands of `bulkLoad` and the fan-out loop of `Loadtest`
(`src/kubernetes/cluster_loadtest.go`). -/
inductive KubeCmd where
  | genBulk (worker : String)
  | cpWorkerToLocal (worker : String)
  | cpLocalToApp (app : String)
  | applyBulkImport (app : String) (workers : Nat)
  | sleepSec (n : Nat)
  | launchLoadtest (idx : Nat) (pod : String) (mirrored : Bool)
deriving DecidableEq, Repr

/-- Whether a command is part of bulk staging. -/
def KubeCmd.isStaging : KubeCmd → Bool
  | .genBulk _ => true
  | .cpWorkerToLocal _ => true
  | .cpLocalToApp _ => true
  | .applyBulkImport _ _ => true
  | .sleepSec _ => false
  | .launchLoadtest _ _ _ => false

/-- Whether a command launches a worker loadtest invocation. -/
def KubeCmd.isLaunch : KubeCmd → Bool
  | .launchLoadtest _ _ _ => true
  | _ => false

/-- `github.com/pkg/errors` semantics: `errors.Wrap(err, msg)` returns nil when
`err` is nil, and otherwise annotates it as `msg + ": " + err`. -/
def errorsWrap : Option String → String → Option String
  | none, _ => none
  | some e, msg => some (msg ++ ": " ++ e)

/-- Scripted outcomes of the four staged commands run by `bulkLoad` (each
`none` = the command succeeded, `some e` = it failed with error `e`, the
combined output folded into the import error text). -/
structure BulkOutcomes where
  genErr : Option String
  cpFromErr : Option String
  cpToErr : Option String
  importErr : Option String
deriving DecidableEq, Repr

/-- Source `bulkLoad` (lines 42-66): one worker generates the bulk dataset
file, the file is copied worker → local working directory, then local → one
app pod (kubectl cp cannot go pod-to-pod), and the app pod applies the import
with `--workers 64`; the first failing step aborts, the import failure being
wrapped as "bulk import failed". Returns the error and the commands run. -/
def bulkLoad (oc : BulkOutcomes) (loadtestPod appPod : String) :
    Option String × List KubeCmd :=
  match oc.genErr with
  | some e => (some e, [.genBulk loadtestPod])
  | none =>
    match oc.cpFromErr with
    | some e => (some e, [.genBulk loadtestPod, .cpWorkerToLocal loadtestPod])
    | none =>
      match oc.cpToErr with
      | some e =>
        (some e,
          [.genBulk loadtestPod, .cpWorkerToLocal loadtestPod, .cpLocalToApp appPod])
      | none =>
        match oc.importErr with
        | some e =>
          (some ("bulk import failed: " ++ e),
            [.genBulk loadtestPod, .cpWorkerToLocal loadtestPod, .cpLocalToApp appPod,
              .applyBulkImport appPod 64])
        | none =>
          (none,
            [.genBulk loadtestPod, .cpWorkerToLocal loadtestPod, .cpLocalToApp appPod,
              .applyBulkImport appPod 64])

/-- The four staging commands in their success order. -/
def stagingCmds (worker app : String) : List KubeCmd :=
  [.genBulk worker, .cpWorkerToLocal worker, .cpLocalToApp app, .applyBulkImport app 64]

/-- Source `Loadtest` fan-out loop (lines 87-103): for every worker, launch its
remote loadtest invocation (mirroring only worker 0's output to the shared
results stream) and sleep the fixed 10-second stagger before the next. -/
def fanOut : Nat → List String → List KubeCmd
  | _, [] => []
  | i, p :: rest =>
    .launchLoadtest i p (decide (i = 0)) :: .sleepSec 10 :: fanOut (i + 1) rest

/-- Scripted environment of one `Loadtest` run: the discovery results
(`GetLoadtestInstancesAddrs`, `GetAppInstancesAddrs`) and the staged-command
outcomes. -/
structure ClusterEnv where
  loadtestPods : List String
  loadtestErr : Option String
  appPods : List String
  appErr : Option String
  bulk : BulkOutcomes
deriving DecidableEq, Repr

/-- Source `Loadtest` (lines 68-109): guard each discovery call with
`if err != nil || len(pods) <= 0 { return errors.Wrap(err, …) }`, then bulk
load through the first worker and first app pod, aborting on its error, then
fan out over every worker. Returns the error and the trace of commands run. -/
def Loadtest (env : ClusterEnv) : Option String × List KubeCmd :=
  if env.loadtestErr.isSome ∨ env.loadtestPods.length ≤ 0 then
    (errorsWrap env.loadtestErr "unable to get loadtest pods", [])
  else if env.appErr.isSome ∨ env.appPods.length ≤ 0 then
    (errorsWrap env.appErr "unable to get app pods", [])
  else
    match bulkLoad env.bulk (env.loadtestPods.headD "") (env.appPods.headD "") with
    | (some e, tr) => (some e, tr)
    | (none, tr) => (none, tr ++ fanOut 0 env.loadtestPods)

end kubernetes

/-- C7: the first scheduled firing time is `intervalStart + U` with
`intervalStart` the largest epoch-anchored multiple of the rate not exceeding
`now`; if that instant precedes `now` it is advanced by exactly one interval,
and the resulting delay is always in `[0, rate)`. -/
theorem c7_first_firing_alignment (now rate u : Nat) (hr : 0 < rate) (hu : u < rate) :
    now ≤ loadtest.firstStart now rate u ∧
    loadtest.firstDelay now rate u < rate ∧
    rate ∣ (now - now % rate) ∧
    now - now % rate ≤ now ∧
    (∀ m, rate ∣ m → m ≤ now → m ≤ now - now % rate) ∧
    (now - now % rate + u < now →
      loadtest.firstStart now rate u = now - now % rate + u + rate) := by
  have hmodle : now % rate ≤ now := Nat.mod_le now rate
  have hmodlt : now % rate < rate := Nat.mod_lt now hr
  have hdm : rate * (now / rate) + now % rate = now := Nat.div_add_mod now rate
  refine ⟨?_, ?_, ?_, ?_, ?_, ?_⟩
  · unfold loadtest.firstStart
    dsimp only
    split <;> omega
  · unfold loadtest.firstDelay loadtest.firstStart
    dsimp only
    split <;> omega
  · exact ⟨now / rate, by omega⟩
  · omega
  · intro m hdvd hle
    obtain ⟨k, rfl⟩ := hdvd
    have hk : k ≤ now / rate := (Nat.le_div_iff_mul_le hr).mpr (by rw [Nat.mul_comm]; omega)
    have := Nat.mul_le_mul_left rate hk
    omega
  · intro hlt
    unfold loadtest.firstStart
    dsimp only
    rw [if_pos hlt]

/-- Witness for C7 at `now = 10`, `rate = 4`, `u = 3`. -/
theorem c7_first_firing_alignment_witness :
    0 < 4 ∧ 3 < 4 ∧ loadtest.firstDelay 10 4 3 < 4 :=
  ⟨by decide, by decide,
    (c7_first_firing_alignment 10 4 3 (by decide) (by decide)).2.1⟩

/-- C8: the re-armed timer duration equals the action rate plus a perturbation
from the variance window centered on zero, so every re-armed gap lies within
`[R - V/2, R + V/2]` (all quantities in the code's own `time.Duration` units). -/
theorem c8_rearm_within_variance (R V r : Int) (_hV : 0 < V) (hr0 : 0 ≤ r) (hrV : r < V) :
    R - V / 2 ≤ loadtest.rearmDuration R V r ∧
    loadtest.rearmDuration R V r ≤ R + V / 2 := by
  unfold loadtest.rearmDuration
  omega

/-- Witness for C8 at `R = 1000000000`, `V = 100`, `r = 99`. -/
theorem c8_rearm_within_variance_witness :
    (0 : Int) < 100 ∧ (0 : Int) ≤ 99 ∧ (99 : Int) < 100 ∧
    1000000000 - 100 / 2 ≤ loadtest.rearmDuration 1000000000 100 99 :=
  ⟨by decide, by decide, by decide,
    (c8_rearm_within_variance 1000000000 100 99 (by decide) (by decide) (by decide)).1⟩

/-- C9: the re-armed duration deviates from the action rate by strictly less
than `V` nanoseconds: both `rand.Intn(V)` and `V / 2` are converted to
`time.Duration` without a millisecond multiplier, so the effective jitter
window is one-millionth of the configured `V` milliseconds. -/
theorem c9_jitter_units_bug (R V r : Int) (_hV : 0 < V) (hr0 : 0 ≤ r) (hrV : r < V) :
    loadtest.rearmDuration R V r = R + r - V / 2 ∧
    loadtest.rearmDuration R V r - R < V ∧
    R - loadtest.rearmDuration R V r < V := by
  unfold loadtest.rearmDuration
  exact ⟨rfl, by omega, by omega⟩

/-- Witness for C9 at `R = 1000000000`, `V = 100`, `r = 0`. -/
theorem c9_jitter_units_bug_witness :
    (0 : Int) < 100 ∧ (0 : Int) ≤ 0 ∧ (0 : Int) < 100 ∧
    loadtest.rearmDuration 1000000000 100 0 - 1000000000 < 100 :=
  ⟨by decide, by decide, by decide,
    (c9_jitter_units_bug 1000000000 100 0 (by decide) (by decide) (by decide)).2.1⟩

/-- C1: refuted by the source's defer ordering. Go runs deferred calls in LIFO
order, so `ec.StopWaitGroup.Done()` (line 120, registered second) executes
before the recover closure's `Add(1)` (line 116): a crashing invocation yields
counter deltas `[-1, +1]`, and with one running entity (counter 1) a single
crash followed by a clean stop drives the counter through `[1, 0, 1, 0]` — it
transiently reaches zero while the entity is still conceptually running (only
the final 0 is the permanent stop). The net effect is one decrement per
permanent stop, as the claim's final clause states. -/
theorem c1_counter_transiently_zero :
    loadtest.unwindDeltas true = [-1, 1] ∧
    loadtest.counterTrace 1 (loadtest.crashStopDeltas 1) = [1, 0, 1, 0] ∧
    ¬(∀ c ∈ (loadtest.counterTrace 1 (loadtest.crashStopDeltas 1)).dropLast, 1 ≤ c) := by
  refine ⟨rfl, rfl, ?_⟩
  decide

/-- C10: an empty or non-positive-total-weight action list makes the weighted
draw fail with a selection error; the runner then logs and returns normally
without executing any action, and the supervisor — which respawns only on a
recovered panic — performs a single decrement and no respawn.
`randutil.WeightedChoice` is modelled from the spec (its source is not under
`src/`). -/
theorem c10_selection_failure_terminates (actions : List randutil.Choice)
    (x : Int) (p : Bool) (rest : List loadtest.SchedEvt)
    (h : actions = [] ∨ randutil.totalWeight actions ≤ 0) :
    loadtest.runEntityLoop actions (.fire x p :: rest) 0 = (.selectionFailure, 0) ∧
    loadtest.superviseExit .selectionFailure = ([-1], false) := by
  have ht : randutil.totalWeight actions ≤ 0 := by
    rcases h with he | h
    · subst he; simp [randutil.totalWeight]
    · exact h
  have hw : randutil.WeightedChoice actions x = .error "SelectionError" := by
    unfold randutil.WeightedChoice
    rw [if_pos ht]
  exact ⟨by simp [loadtest.runEntityLoop, hw], rfl⟩

/-- Witness for C10 at the empty action list. -/
theorem c10_selection_failure_terminates_witness :
    (([] : List randutil.Choice) = [] ∨ randutil.totalWeight [] ≤ 0) ∧
    loadtest.runEntityLoop [] [.fire 0 false] 0 = (.selectionFailure, 0) :=
  ⟨Or.inl rfl, (c10_selection_failure_terminates [] 0 false [] (Or.inl rfl)).1⟩

/-- Once the retry counter exceeds 5, the retry loop declares the connection
dead at once, whatever connect outcomes remain scripted. -/
theorem retryLoop_dead_of_high (retry : Nat) (cs : List Bool) (h : 5 < retry) :
    loadtest.retryLoop retry cs = ⟨.dead retry, [], 0, 0⟩ := by
  cases cs <;> simp [loadtest.retryLoop, h]

/-- Unfolding of the retry loop on a failing connect attempt. -/
theorem retryLoop_cons_false (retry : Nat) (rest : List Bool) (h : ¬ 5 < retry) :
    loadtest.retryLoop retry (false :: rest) =
      ⟨(loadtest.retryLoop (retry + 1) rest).out,
        retry :: (loadtest.retryLoop (retry + 1) rest).sleeps,
        (loadtest.retryLoop (retry + 1) rest).failedConnects + 1,
        (loadtest.retryLoop (retry + 1) rest).okConnects⟩ := by
  simp [loadtest.retryLoop, h]

/-- Unfolding of the retry loop on a successful connect attempt. -/
theorem retryLoop_cons_true (retry : Nat) (rest : List Bool) (h : ¬ 5 < retry) :
    loadtest.retryLoop retry (true :: rest) = ⟨.reconnected retry, [retry], 0, 1⟩ := by
  simp [loadtest.retryLoop, h]

/-- With the counter at `6 - k` (for `k ≤ 6`) and every connect failing, the
retry loop performs exactly `k` more attempts, sleeping `6-k, …, 5` seconds,
and dies with the counter at 6. -/
theorem retryLoop_all_fail : ∀ (k : Nat), k ≤ 6 → ∀ (m : Nat),
    loadtest.retryLoop (6 - k) (List.replicate (k + m) false) =
      ⟨.dead 6, List.range' (6 - k) k, k, 0⟩ := by
  intro k
  induction k with
  | zero =>
    intro _ m
    simpa using retryLoop_dead_of_high 6 (List.replicate m false) (by omega)
  | succ k ih =>
    intro hk m
    have h1 : ¬ 5 < 6 - (k + 1) := by omega
    have h2 : k + 1 + m = (k + m) + 1 := by omega
    have h3 : 6 - (k + 1) + 1 = 6 - k := by omega
    rw [h2, List.replicate_succ, retryLoop_cons_false _ _ h1, h3,
      ih (by omega) m, List.range'_succ, h3]

/-- C4: starting from a fresh listener (counter 0), an episode in which every
reconnect fails performs exactly 6 connect attempts — attempt `n` preceded by a
sleep of `n` seconds (`sleeps = [0,1,2,3,4,5]`), so the first retry is
immediate — performs no 7th, declares the connection dead, and logs the last
listen error (or the closed-by-peer message when there is none). -/
theorem c4_six_attempts_then_dead (n : Nat) (listenErr : Option String) (h : 6 ≤ n) :
    loadtest.websocketListen false (fun _ => false) listenErr
        [loadtest.WsEvt.closed (List.replicate n false)] =
      ⟨.dead, [0, 1, 2, 3, 4, 5], 6, 0, some (loadtest.deadLogMsg listenErr)⟩ := by
  obtain ⟨m, rfl⟩ : ∃ m, n = 6 + m := ⟨n - 6, by omega⟩
  have hr := retryLoop_all_fail 6 (by omega) m
  have hz : (6 : Nat) - 6 = 0 := rfl
  rw [hz] at hr
  have hrange : List.range' 0 6 = [0, 1, 2, 3, 4, 5] := by decide
  rw [hrange] at hr
  simp [loadtest.websocketListen, loadtest.wsOuter, hr]

/-- Witness for C4 at `n = 6` with no listen error recorded. -/
theorem c4_six_attempts_then_dead_witness :
    6 ≤ 6 ∧
    loadtest.websocketListen false (fun _ => false) none
        [loadtest.WsEvt.closed (List.replicate 6 false)] =
      ⟨.dead, [0, 1, 2, 3, 4, 5], 6, 0, some "Server closed websocket"⟩ :=
  ⟨Nat.le_refl 6, c4_six_attempts_then_dead 6 none (Nat.le_refl 6)⟩

/-- C3 counterexample: the stop signal is pending from immediately after outer
iteration 0 (`stopFromOne k = true` for every `k ≥ 1`), i.e. during the whole
reconnect episode, yet the listener does not stop: it performs all 6 reconnect
attempts and declares the connection dead, because the retry loop never
consults the stop channel. -/
theorem c3_counterexample_stop_ignored_midreconnect :
    loadtest.websocketListen false loadtest.stopFromOne none
        [loadtest.WsEvt.closed [false, false, false, false, false, false]] =
      ⟨.dead, [0, 1, 2, 3, 4, 5], 6, 0, some "Server closed websocket"⟩ ∧
    loadtest.stopFromOne 1 = true ∧ loadtest.stopFromOne 5 = true := by
  exact ⟨by decide, rfl, rfl⟩

/-- C3 (amended): the stop signal is checked once per outer select iteration —
observing it there ends the task immediately with no further activity — but it
is not checked inside the reconnect-retry loop, so a stop arriving
mid-reconnect takes effect only at the next outer iteration after a successful
reconnect (the scenario in the second conjunct: one failed and one successful
reconnect happen with the stop signal already pending, and the task stops only
afterwards). -/
theorem c3_stop_checked_outer_only (stopNow : Nat → Bool) (listenErr : Option String)
    (evts : List loadtest.WsEvt) (h : stopNow 0 = true) :
    loadtest.websocketListen false stopNow listenErr evts =
      ⟨.stopped, [], 0, 0, none⟩ ∧
    loadtest.websocketListen false loadtest.stopFromOne none
        [loadtest.WsEvt.closed [false, true], loadtest.WsEvt.msg] =
      ⟨.stopped, [0, 1], 1, 1, none⟩ := by
  constructor
  · cases evts with
    | nil => simp [loadtest.websocketListen, loadtest.wsOuter, h]
    | cons e rest => cases e <;> simp [loadtest.websocketListen, loadtest.wsOuter, h]
  · decide

/-- Witness for C3 (amended) with the stop signal pending from the start. -/
theorem c3_stop_checked_outer_only_witness :
    (fun _ : Nat => true) 0 = true ∧
    loadtest.websocketListen false (fun _ => true) none [] =
      ⟨.stopped, [], 0, 0, none⟩ :=
  ⟨rfl, (c3_stop_checked_outer_only (fun _ => true) none [] rfl).1⟩

/-- Retry-loop invariant: the recorded sleeps (the counter value at each
attempt) are non-decreasing and bounded between the entry and exit counters;
the exit counter is the entry counter plus the failed attempts; and an entry
counter at most 6 leaves the exit counter at most 6. -/
theorem retryLoop_invariant : ∀ (cs : List Bool) (retry : Nat),
    List.Chain' (· ≤ ·) (loadtest.retryLoop retry cs).sleeps ∧
    (∀ s ∈ (loadtest.retryLoop retry cs).sleeps,
      retry ≤ s ∧ s ≤ (loadtest.retryLoop retry cs).out.finalRetry) ∧
    retry ≤ (loadtest.retryLoop retry cs).out.finalRetry ∧
    (loadtest.retryLoop retry cs).failedConnects + retry =
      (loadtest.retryLoop retry cs).out.finalRetry ∧
    (retry ≤ 6 → (loadtest.retryLoop retry cs).out.finalRetry ≤ 6) := by
  intro cs
  induction cs with
  | nil =>
    intro retry
    by_cases h : 5 < retry <;>
      simp [loadtest.retryLoop, h, loadtest.RetryOut.finalRetry]
  | cons c rest ih =>
    intro retry
    by_cases h : 5 < retry
    · rw [retryLoop_dead_of_high retry (c :: rest) h]
      simp [loadtest.RetryOut.finalRetry]
    · cases c
      · obtain ⟨ih1, ih2, ih3, ih4, ih5⟩ := ih (retry + 1)
        rw [retryLoop_cons_false retry rest h]
        dsimp only
        refine ⟨?_, ?_, ?_, ?_, ?_⟩
        · refine List.chain'_cons'.mpr ⟨?_, ih1⟩
          intro y hy
          have := (ih2 y (List.mem_of_mem_head? hy)).1
          omega
        · intro s hs
          rcases List.mem_cons.mp hs with rfl | hs
          · exact ⟨Nat.le_refl s, by omega⟩
          · have := ih2 s hs
            omega
        · omega
        · omega
        · intro h6
          exact ih5 (by omega)
      · rw [retryLoop_cons_true retry rest h]
        simp [loadtest.RetryOut.finalRetry]

/-- Outer-loop invariant: over any script, the concatenated sleeps are
non-decreasing, all at least the entry counter, and an entry counter at most 6
bounds the total failed connect attempts by `6 - retry`. -/
theorem wsOuter_invariant (stopNow : Nat → Bool) (listenErr : Option String) :
    ∀ (evts : List loadtest.WsEvt) (k retry : Nat),
    List.Chain' (· ≤ ·) (loadtest.wsOuter stopNow listenErr k retry evts).sleeps ∧
    (∀ s ∈ (loadtest.wsOuter stopNow listenErr k retry evts).sleeps, retry ≤ s) ∧
    (retry ≤ 6 →
      (loadtest.wsOuter stopNow listenErr k retry evts).failedConnects + retry ≤ 6) := by
  intro evts
  induction evts with
  | nil =>
    intro k retry
    by_cases h : stopNow k <;> simp [loadtest.wsOuter, h]
  | cons e rest ih =>
    intro k retry
    by_cases h : stopNow k
    · cases e <;> simp [loadtest.wsOuter, h]
    · cases e with
      | msg =>
        simpa [loadtest.wsOuter, h] using ih (k + 1) retry
      | closed cs =>
        obtain ⟨r1, r2, r3, r4, r5⟩ := retryLoop_invariant cs retry
        simp only [loadtest.wsOuter, h, if_false, Bool.false_eq_true]
        cases hout : (loadtest.retryLoop retry cs).out with
        | dead fr =>
          simp only [hout]
          rw [hout] at r2 r3 r4 r5
          exact ⟨r1, fun s hs => (r2 s hs).1, fun h6 => by
            have := r5 h6
            simp [loadtest.RetryOut.finalRetry] at r4 this
            omega⟩
        | exhausted fr =>
          simp only [hout]
          rw [hout] at r2 r3 r4 r5
          exact ⟨r1, fun s hs => (r2 s hs).1, fun h6 => by
            have := r5 h6
            simp [loadtest.RetryOut.finalRetry] at r4 this
            omega⟩
        | reconnected fr =>
          obtain ⟨w1, w2, w3⟩ := ih (k + 1) fr
          simp only [hout]
          rw [hout] at r2 r3 r4 r5
          simp only [loadtest.RetryOut.finalRetry] at r2 r3 r4 r5
          refine ⟨?_, ?_, ?_⟩
          · refine List.chain'_append.mpr ⟨r1, w1, ?_⟩
            intro x hx y hy
            have hx' := (r2 x (List.mem_of_mem_getLast? hx)).2
            have hy' := w2 y (List.mem_of_mem_head? hy)
            omega
          · intro s hs
            rcases List.mem_append.mp hs with hs | hs
            · exact (r2 s hs).1
            · have := w2 s hs
              omega
          · intro h6
            have hfr : fr ≤ 6 := r5 h6
            have := w3 hfr
            omega

/-- C5: the websocket retry counter is monotonically non-decreasing over the
lifetime of the listening task — the sleeps list records the counter at every
reconnect attempt, it is never reset after a successful reconnect — and retries
accumulated across distinct failure episodes count toward the same
more-than-5 death threshold: no run ever performs more than 6 failing connect
attempts in total. -/
theorem c5_retry_counter_monotone (clientNil : Bool) (stopNow : Nat → Bool)
    (listenErr : Option String) (evts : List loadtest.WsEvt) :
    List.Chain' (· ≤ ·)
      (loadtest.websocketListen clientNil stopNow listenErr evts).sleeps ∧
    (loadtest.websocketListen clientNil stopNow listenErr evts).failedConnects ≤ 6 := by
  cases clientNil with
  | false =>
    obtain ⟨h1, _, h3⟩ := wsOuter_invariant stopNow listenErr evts 0 0
    refine ⟨by simpa [loadtest.websocketListen] using h1, ?_⟩
    have := h3 (by omega)
    simpa [loadtest.websocketListen] using by omega
  | true => simp [loadtest.websocketListen]

/-- C2: refuted — `errors.Wrap(nil, msg)` of `github.com/pkg/errors` returns
nil, so when a discovery call yields an empty pod list together with a nil
error, `Loadtest` returns early (performing no staging and no fan-out, as the
claim says) but with a NIL error, not a non-nil discovery error. With a
non-nil discovery error the wrapped error is non-nil (third conjunct). -/
theorem c2_empty_discovery_nil_error :
    kubernetes.Loadtest ⟨[], none, ["app0"], none, ⟨none, none, none, none⟩⟩ =
      (none, []) ∧
    kubernetes.Loadtest ⟨["w0"], none, [], none, ⟨none, none, none, none⟩⟩ =
      (none, []) ∧
    kubernetes.Loadtest ⟨[], some "boom", ["app0"], none, ⟨none, none, none, none⟩⟩ =
      (some "unable to get loadtest pods: boom", []) := by
  exact ⟨rfl, rfl, rfl⟩

/-- The fan-out trace contains no staging command. -/
theorem fanOut_no_staging (i : Nat) (pods : List String) :
    ∀ c ∈ kubernetes.fanOut i pods, c.isStaging = false := by
  induction pods generalizing i with
  | nil => intro c hc; simp [kubernetes.fanOut] at hc
  | cons p rest ih =>
    intro c hc
    simp only [kubernetes.fanOut] at hc
    rcases List.mem_cons.mp hc with rfl | hc
    · rfl
    rcases List.mem_cons.mp hc with rfl | hc
    · rfl
    exact ih (i + 1) c hc

/-- C6: with non-empty worker and target sets, bulk staging runs exactly once
and strictly before any fan-out launch — the trace is exactly the two-hop
staging sequence (one worker generates, copy worker → orchestrator, copy
orchestrator → one target, import applied by the target with parallelism 64)
followed by the fan-out, which contains no staging command; and if any staging
step fails, `Loadtest` aborts with a non-nil error having launched no worker
task (no retry of staging appears in the trace). -/
theorem c6_staging_once_before_fanout (lps aps : List String)
    (b : kubernetes.BulkOutcomes) (h3 : lps ≠ []) (h4 : aps ≠ []) :
    ((b.genErr = none ∧ b.cpFromErr = none ∧ b.cpToErr = none ∧ b.importErr = none) →
      kubernetes.Loadtest ⟨lps, none, aps, none, b⟩ =
        (none, kubernetes.stagingCmds (lps.headD "") (aps.headD "") ++
          kubernetes.fanOut 0 lps) ∧
      ∀ c ∈ kubernetes.fanOut 0 lps, c.isStaging = false) ∧
    (¬(b.genErr = none ∧ b.cpFromErr = none ∧ b.cpToErr = none ∧ b.importErr = none) →
      (kubernetes.Loadtest ⟨lps, none, aps, none, b⟩).1.isSome = true ∧
      ∀ c ∈ (kubernetes.Loadtest ⟨lps, none, aps, none, b⟩).2, c.isLaunch = false) := by
  obtain ⟨l0, lr, rfl⟩ := List.exists_cons_of_ne_nil h3
  obtain ⟨a0, ar, rfl⟩ := List.exists_cons_of_ne_nil h4
  obtain ⟨g, cf, ct, ie⟩ := b
  constructor
  · rintro ⟨rfl, rfl, rfl, rfl⟩
    exact ⟨by simp [kubernetes.Loadtest, kubernetes.bulkLoad, kubernetes.stagingCmds],
      fanOut_no_staging 0 _⟩
  · intro hnot
    rcases g with _ | eg
    · rcases cf with _ | ecf
      · rcases ct with _ | ect
        · rcases ie with _ | eie
          · exact absurd ⟨rfl, rfl, rfl, rfl⟩ hnot
          · constructor
            · simp [kubernetes.Loadtest, kubernetes.bulkLoad]
            · intro c hc
              simp [kubernetes.Loadtest, kubernetes.bulkLoad] at hc
              rcases hc with rfl | rfl | rfl | rfl <;> rfl
        · constructor
          · simp [kubernetes.Loadtest, kubernetes.bulkLoad]
          · intro c hc
            simp [kubernetes.Loadtest, kubernetes.bulkLoad] at hc
            rcases hc with rfl | rfl | rfl <;> rfl
      · constructor
        · simp [kubernetes.Loadtest, kubernetes.bulkLoad]
        · intro c hc
          simp [kubernetes.Loadtest, kubernetes.bulkLoad] at hc
          rcases hc with rfl | rfl <;> rfl
    · constructor
      · simp [kubernetes.Loadtest, kubernetes.bulkLoad]
      · intro c hc
        simp [kubernetes.Loadtest, kubernetes.bulkLoad] at hc
        subst hc
        rfl

/-- Witness for C6 with 3 discovered workers and 1 target, all staging steps
succeeding. -/
theorem c6_staging_once_before_fanout_witness :
    kubernetes.Loadtest
        ⟨["w0", "w1", "w2"], none, ["a0"], none, ⟨none, none, none, none⟩⟩ =
      (none, kubernetes.stagingCmds "w0" "a0" ++
        kubernetes.fanOut 0 ["w0", "w1", "w2"]) :=
  ((c6_staging_once_before_fanout ["w0", "w1", "w2"] ["a0"] ⟨none, none, none, none⟩
      (by simp) (by simp)).1 ⟨rfl, rfl, rfl, rfl⟩).1
